import Mathlib

/-!
Shallow embedding of the pflow FBP runtime (`src/pflow/runtime.py`).

The `Runtime` class keeps three process-wide dictionaries: `_components`
(component metadata keyed by long class name), `_graphs` (graph instances
keyed by graph id) and `_executors` (executor instances keyed by graph id).
Python dictionaries are embedded as association lists; Python exceptions as
an error type returned next to the (possibly partially mutated) state, since
a raised exception leaves previous in-place mutations applied.

The classes `core.Graph`, `core.Component` and the executor are not part of
the given source; their operations used by `runtime.py` are modelled from
the spec (sections 3, 4.1, 4.3, 4.4) and marked as such in doc comments.
-/

namespace Pflow

/-- Update-or-append for an association list: the embedding of assignment
`d[k] = v` on a Python dict (replaces the first binding in place). -/
def setKey {β : Type} (l : List (String × β)) (k : String) (v : β) : List (String × β) :=
  match l with
  | [] => [(k, v)]
  | (k1, v1) :: t => if k1 == k then (k, v) :: t else (k1, v1) :: setKey t k v

/-- The embedding of `del d[k]` on a Python dict: every binding of `k` is
removed (a dict holds at most one, so this agrees with it). -/
def removeKey {β : Type} (l : List (String × β)) (k : String) : List (String × β) :=
  l.filter (fun p => !(p.1 == k))

/-- Native Python types occurring in port `allowed_types` sets. The mapped
constructors mirror the keys of `Runtime._type_map`; `custom` stands for any
native type absent from the map (e.g. a user-defined class). -/
inductive NativeType where
  | str | unicodeTy | bool | int | float | complex
  | dict | list | tuple | set | frozenset
  | custom (name : String)
  deriving DecidableEq, Repr

/-- `Runtime._type_map`: mapping of native Python types to FBP protocol
type names, entry for entry from the source dict. -/
def type_map : List (NativeType × String) :=
  [ (.str, "string"), (.unicodeTy, "string"), (.bool, "boolean"),
    (.int, "int"), (.float, "number"), (.complex, "number"),
    (.dict, "object"), (.list, "array"), (.tuple, "array"),
    (.set, "array"), (.frozenset, "array") ]

/-- `self._type_map.get(t, d)`: dictionary lookup with a default. -/
def type_map_get (t : NativeType) (d : String) : String :=
  match type_map.lookup t with
  | some v => v
  | none => d

/-- IIP payloads (arbitrary JSON literals in the protocol) are embedded as
strings; only their identity matters to the runtime. -/
abbrev PData := String

/-- Port metadata declared on a component class: name, allowed native
types, optional flag, array flag, default value, description. -/
structure PortSpec where
  name : String
  allowedTypes : List NativeType
  optional : Bool
  isArrayPort : Bool
  defaultVal : Option PData
  description : String
  deriving DecidableEq, Repr

/-- A Python component class as `register_component` sees it: its module
and class names, whether it is a subclass of `core.Component` resp.
`core.Graph`, its docstring, and the ports an instance exposes. -/
structure ComponentClass where
  modName : String
  clsName : String
  isComponentSub : Bool
  isGraphSub : Bool
  doc : String
  inPorts : List PortSpec
  outPorts : List PortSpec
  deriving DecidableEq, Repr

/-- `Runtime._long_class_name`: `'{module}/{name}'`. -/
def long_class_name (c : ComponentClass) : String :=
  c.modName ++ "/" ++ c.clsName

/-- One entry of the `inPorts`/`outPorts` lists of a component spec
(`outPorts` entries carry no default, embedded as `none`). -/
structure PortEntry where
  id : String
  type : String
  description : String
  addressable : Bool
  required : Bool
  defaultVal : Option PData
  deriving DecidableEq, Repr

/-- The FBP component spec record built by `Runtime._create_component_spec`. -/
structure ComponentSpec where
  name : String
  description : String
  subgraph : Bool
  inPorts : List PortEntry
  outPorts : List PortEntry
  deriving DecidableEq, Repr

/-- `get_port_type` (local function in `_create_component_spec`): an empty
allowed-type set yields the default, a singleton set is looked up in the
type map with the default as fallback, more than one allowed type falls
back to the default (with a warning in the source). -/
def get_port_type (allowedTypes : List NativeType) (default_type : String) : String :=
  match allowedTypes with
  | [] => default_type
  | [t] => type_map_get t default_type
  | _ => default_type

/-- `Runtime._create_component_spec`: builds the introspection record from
a (fake-named) instance of the component class. All call sites use the
default `default_type='any'` of `get_port_type`. -/
def create_component_spec (componentClassName : String) (c : ComponentClass) : ComponentSpec :=
  { name := componentClassName
    description := c.doc.trim
    subgraph := c.isGraphSub
    inPorts := c.inPorts.map (fun p =>
      { id := p.name
        type := get_port_type p.allowedTypes "any"
        description := p.description
        addressable := p.isArrayPort
        required := !p.optional
        defaultVal := p.defaultVal })
    outPorts := c.outPorts.map (fun p =>
      { id := p.name
        type := get_port_type p.allowedTypes "any"
        description := p.description
        addressable := p.isArrayPort
        required := !p.optional
        defaultVal := none }) }

/-- The errors surfaced by the runtime. `keyError` and `attrError` are the
Python `KeyError`/`AttributeError` raised by failed dict lookups and by
calling a method on `None`; `valueError` is raised explicitly by
`runtime.py`; the remaining kinds are the spec's error taxonomy for the
modelled `core.Graph`/executor operations (section 7). -/
inductive RErr where
  | keyError (k : String)
  | attrError
  | valueError (msg : String)
  | lookupError
  | conflictError
  | duplicateNameError
  | stateError
  deriving DecidableEq, Repr

/-- Attachment state of one port. Modelled from the spec (section 3): a
non-array port carries at most one of a live connection or an IIP. -/
inductive Attachment where
  | unattached
  | conn
  | iip (v : PData)
  deriving DecidableEq, Repr

/-- `port.is_connected()`: whether the port has any attachment (in pflow an
IIP is realised as a connection from a generator, so it counts). -/
def Attachment.is_connected : Attachment → Bool
  | .unattached => false
  | _ => true

/-- A component instance inside a graph: its node name, the class it was
instantiated from, and the attachment state of its input and output ports
(keyed by port name). -/
structure Comp where
  name : String
  clsName : String
  inputs : List (String × Attachment)
  outputs : List (String × Attachment)
  deriving DecidableEq, Repr

/-- Instantiation `component_class(node_id)`: a fresh instance whose ports
come from the class declaration, all unattached. -/
def ComponentClass.instantiate (c : ComponentClass) (nodeId : String) : Comp :=
  { name := nodeId
    clsName := c.clsName
    inputs := c.inPorts.map (fun p => (p.name, Attachment.unattached))
    outputs := c.outPorts.map (fun p => (p.name, Attachment.unattached)) }

/-- A graph: its id and its component instances in insertion order.
Modelled from the spec (section 3): connections and IIPs are recorded as
per-port attachment state on the components. -/
structure Graph where
  gid : String
  components : List Comp
  deriving DecidableEq, Repr

/-- `core.Graph(graph_id, initialize=False)`: a fresh empty graph. -/
def Graph.new (gid : String) : Graph := ⟨gid, []⟩

/-- `Runtime._find_component_by_name`: first component with the given
name, `None` if absent (translated from the source loop). -/
def Graph.findComp (gr : Graph) (n : String) : Option Comp :=
  gr.components.find? (fun c => c.name == n)

/-- Replace the first component with the given name by `f` of it; the
embedding of an in-place mutation of that component object. -/
def updateFirstComp (l : List Comp) (n : String) (f : Comp → Comp) : List Comp :=
  match l with
  | [] => []
  | c :: t => if c.name == n then f c :: t else c :: updateFirstComp t n f

/-- Set the attachment of one port of one component (`dirIn` selects the
input or output port map). -/
def Comp.setAttach (c : Comp) (dirIn : Bool) (p : String) (a : Attachment) : Comp :=
  if dirIn then { c with inputs := setKey c.inputs p a }
  else { c with outputs := setKey c.outputs p a }

/-- Set the attachment of the named port inside the graph. -/
def Graph.setAttach (gr : Graph) (n : String) (dirIn : Bool) (p : String) (a : Attachment) : Graph :=
  { gr with components := updateFirstComp gr.components n (fun c => c.setAttach dirIn p a) }

/-- Read the attachment of the named port, `none` when the component or
port does not exist. -/
def Graph.getAttach (gr : Graph) (n : String) (dirIn : Bool) (p : String) : Option Attachment :=
  match gr.findComp n with
  | none => none
  | some c => (if dirIn then c.inputs else c.outputs).lookup p

/-- Modelled from the spec: `graph.disconnect(port)` of the missing
`core.Graph` fails with LookupError when the port has no attachment
(section 4.3), otherwise detaches it. -/
def Graph.disconnect (gr : Graph) (n : String) (dirIn : Bool) (p : String) : Except RErr Graph :=
  match gr.getAttach n dirIn p with
  | none => .error .lookupError
  | some .unattached => .error .lookupError
  | some _ => .ok (gr.setAttach n dirIn p .unattached)

/-- Modelled from the spec: `graph.set_initial_packet(port, value)` of the
missing `core.Graph` binds an IIP to an input port; mutually exclusive
with a live connection (sections 3, 4.3). -/
def Graph.set_initial_packet (gr : Graph) (n : String) (p : String) (v : PData) : Except RErr Graph :=
  match gr.getAttach n true p with
  | none => .error .lookupError
  | some .conn => .error .conflictError
  | some _ => .ok (gr.setAttach n true p (.iip v))

/-- Modelled from the spec: `graph.unset_initial_packet(port)` of the
missing `core.Graph` removes the IIP when one is set (section 4.3). -/
def Graph.unset_initial_packet (gr : Graph) (n : String) (p : String) : Except RErr Graph :=
  match gr.getAttach n true p with
  | none => .error .lookupError
  | some (.iip _) => .ok (gr.setAttach n true p .unattached)
  | some _ => .ok gr

/-- Modelled from the spec: `graph.connect(source_port, target_port)` of
the missing `core.Graph` attaches a connection; fails with ConflictError
when the target is already attached (section 4.3). -/
def Graph.connect (gr : Graph) (sn sp tn tp : String) : Except RErr Graph :=
  match gr.getAttach sn false sp, gr.getAttach tn true tp with
  | none, _ => .error .lookupError
  | _, none => .error .lookupError
  | some _, some .unattached =>
      .ok ((gr.setAttach sn false sp .conn).setAttach tn true tp .conn)
  | _, some _ => .error .conflictError

/-- Modelled from the spec: `graph.add_component(component)` of the
missing `core.Graph` fails with DuplicateNameError on a name collision
(section 4.3). -/
def Graph.add_component (gr : Graph) (c : Comp) : Except RErr Graph :=
  if (gr.findComp c.name).isSome then .error .duplicateNameError
  else .ok { gr with components := gr.components ++ [c] }

/-- Modelled from the spec: `graph.remove_component(name)` of the missing
`core.Graph` fails with LookupError when absent and cascades removal of
the component with its attachments (section 4.3). -/
def Graph.remove_component (gr : Graph) (n : String) : Except RErr Graph :=
  if (gr.findComp n).isSome then
    .ok { gr with components := gr.components.filter (fun c => !(c.name == n)) }
  else .error .lookupError

/-- Modelled from the spec: a graph executor (the missing
`SingleProcessGraphExecutor`) holds the graph it was constructed on and a
running flag; idle when constructed, running after `execute()` until
`stop()` (section 4.4). -/
structure Executor where
  graph : Graph
  running : Bool
  deriving DecidableEq, Repr

/-- Modelled from the spec: `executor_class(graph)` constructs an idle
executor bound to the graph. -/
def Executor.new (gr : Graph) : Executor := ⟨gr, false⟩

/-- Modelled from the spec: `executor.is_running()` is a pure query of the
running flag (section 4.4). -/
def Executor.is_running (e : Executor) : Bool := e.running

/-- Modelled from the spec: `executor.execute()` transitions idle to
running, failing with StateError when already running; `is_running()`
stays true after it returns until `stop()` (quiescence is not
termination, section 4.4). -/
def Executor.execute (e : Executor) : Except RErr Executor :=
  if e.running then .error .stateError else .ok { e with running := true }

/-- Modelled from the spec: `executor.stop()` transitions running to
stopped, failing with StateError when not running (section 4.4). -/
def Executor.stop (e : Executor) : Except RErr Executor :=
  if e.running then .ok { e with running := false } else .error .stateError

/-- One stored entry of `Runtime._components`: the dict
`{'class': ..., 'spec': ...}`. -/
structure CompEntry where
  cls : ComponentClass
  spec : ComponentSpec
  deriving DecidableEq, Repr

/-- The state of a `Runtime` instance: `_components`, `_graphs` and
`_executors`. -/
structure Runtime where
  components : List (String × CompEntry)
  graphs : List (String × Graph)
  executors : List (String × Executor)
  deriving DecidableEq, Repr

/-- `Runtime.register_component`: rejects non-`Component` classes with
ValueError, rejects a duplicate long name with ValueError unless
`overwrite`, otherwise stores the class with its freshly built spec. -/
def Runtime.register_component (s : Runtime) (c : ComponentClass) (overwrite : Bool) :
    Runtime × Option RErr :=
  if !c.isComponentSub then
    (s, some (.valueError "component_class must be a class that inherits from Component"))
  else
    let longName := long_class_name c
    if (s.components.lookup longName).isSome && !overwrite then
      (s, some (.valueError ("Component " ++ longName ++ " already registered")))
    else
      ({ s with components :=
          setKey s.components longName ⟨c, create_component_spec longName c⟩ }, none)

/-- `Runtime.is_started`: `False` when no executor entry exists for the
graph id, otherwise the executor's `is_running()`. -/
def Runtime.is_started (s : Runtime) (g : String) : Bool :=
  match s.executors.lookup g with
  | none => false
  | some e => e.is_running

/-- `Runtime.start`: looks the graph up (`KeyError` when absent), lazily
creates and stores the executor when none exists, raises ValueError when
the executor is already running, otherwise calls `executor.execute()`. -/
def Runtime.start (s : Runtime) (g : String) : Runtime × Option RErr :=
  match s.graphs.lookup g with
  | none => (s, some (.keyError g))
  | some gr =>
    let pair : Runtime × Executor :=
      match s.executors.lookup g with
      | none =>
          let e := Executor.new gr
          ({ s with executors := setKey s.executors g e }, e)
      | some e => (s, e)
    let s1 := pair.1
    let e := pair.2
    if e.is_running then
      (s1, some (.valueError ("Graph " ++ g ++ " is already started")))
    else
      match e.execute with
      | .error err => (s1, some err)
      | .ok e1 => ({ s1 with executors := setKey s1.executors g e1 }, none)

/-- `Runtime.stop`: ValueError when no executor entry exists, otherwise
calls `executor.stop()` and deletes the entry. -/
def Runtime.stop (s : Runtime) (g : String) : Runtime × Option RErr :=
  match s.executors.lookup g with
  | none => (s, some (.valueError ("Invalid graph: " ++ g)))
  | some e =>
    match e.stop with
    | .error err => (s, some err)
    | .ok _ => ({ s with executors := removeKey s.executors g }, none)

/-- `Runtime._create_or_get_graph`: creates a fresh empty graph under the
id when absent, then returns the stored graph. -/
def Runtime.create_or_get_graph (s : Runtime) (g : String) : Runtime × Graph :=
  match s.graphs.lookup g with
  | none =>
      let gr := Graph.new g
      ({ s with graphs := setKey s.graphs g gr }, gr)
  | some gr => (s, gr)

/-- `Runtime.new_graph`: unconditionally binds a fresh empty graph to the
id. -/
def Runtime.new_graph (s : Runtime) (g : String) : Runtime :=
  { s with graphs := setKey s.graphs g (Graph.new g) }

/-- `Runtime.add_node`: gets or creates the graph, looks the component
class up (`KeyError` when unregistered — the created graph persists),
instantiates it under the node id and adds it to the graph. -/
def Runtime.add_node (s : Runtime) (g nodeId componentId : String) : Runtime × Option RErr :=
  let p := Runtime.create_or_get_graph s g
  let s1 := p.1
  let gr := p.2
  match s1.components.lookup componentId with
  | none => (s1, some (.keyError componentId))
  | some entry =>
    match gr.add_component (entry.cls.instantiate nodeId) with
    | .error e => (s1, some e)
    | .ok gr1 => ({ s1 with graphs := setKey s1.graphs g gr1 }, none)

/-- `Runtime.remove_node`: gets or creates the graph, then removes the
component instance from it. -/
def Runtime.remove_node (s : Runtime) (g nodeId : String) : Runtime × Option RErr :=
  let p := Runtime.create_or_get_graph s g
  let s1 := p.1
  let gr := p.2
  match gr.remove_component nodeId with
  | .error e => (s1, some e)
  | .ok gr1 => ({ s1 with graphs := setKey s1.graphs g gr1 }, none)

/-- `Runtime.add_edge`: direct graph lookup (`KeyError` for an unknown
id), resolves both endpoint ports and connects them. -/
def Runtime.add_edge (s : Runtime) (g sn sp tn tp : String) : Runtime × Option RErr :=
  match s.graphs.lookup g with
  | none => (s, some (.keyError g))
  | some gr =>
    match gr.findComp sn with
    | none => (s, some .attrError)
    | some sc =>
      match sc.outputs.lookup sp with
      | none => (s, some (.keyError sp))
      | some _ =>
        match gr.findComp tn with
        | none => (s, some .attrError)
        | some tc =>
          match tc.inputs.lookup tp with
          | none => (s, some (.keyError tp))
          | some _ =>
            match gr.connect sn sp tn tp with
            | .error e => (s, some e)
            | .ok gr1 => ({ s with graphs := setKey s.graphs g gr1 }, none)

/-- `Runtime.remove_edge`: direct graph lookup, then each endpoint port is
disconnected only after its `is_connected()` guard; the first disconnect
is already applied when the second endpoint is resolved. -/
def Runtime.remove_edge (s : Runtime) (g sn sp tn tp : String) : Runtime × Option RErr :=
  match s.graphs.lookup g with
  | none => (s, some (.keyError g))
  | some gr =>
    match gr.findComp sn with
    | none => (s, some .attrError)
    | some sc =>
      match sc.outputs.lookup sp with
      | none => (s, some (.keyError sp))
      | some sa =>
        match (if sa.is_connected then gr.disconnect sn false sp else .ok gr) with
        | .error e => (s, some e)
        | .ok gr1 =>
          let s1 := { s with graphs := setKey s.graphs g gr1 }
          match gr1.findComp tn with
          | none => (s1, some .attrError)
          | some tc =>
            match tc.inputs.lookup tp with
            | none => (s1, some (.keyError tp))
            | some ta =>
              match (if ta.is_connected then gr1.disconnect tn true tp else .ok gr1) with
              | .error e => (s1, some e)
              | .ok gr2 => ({ s1 with graphs := setKey s1.graphs g gr2 }, none)

/-- `Runtime.add_iip`: direct graph lookup, resolves the target input
port, disconnects it only under its `is_connected()` guard, then sets the
initial packet. -/
def Runtime.add_iip (s : Runtime) (g tn tp : String) (data : PData) : Runtime × Option RErr :=
  match s.graphs.lookup g with
  | none => (s, some (.keyError g))
  | some gr =>
    match gr.findComp tn with
    | none => (s, some .attrError)
    | some tc =>
      match tc.inputs.lookup tp with
      | none => (s, some (.keyError tp))
      | some ta =>
        match (if ta.is_connected then gr.disconnect tn true tp else .ok gr) with
        | .error e => (s, some e)
        | .ok gr1 =>
          let s1 := { s with graphs := setKey s.graphs g gr1 }
          match gr1.set_initial_packet tn tp data with
          | .error e => (s1, some e)
          | .ok gr2 => ({ s with graphs := setKey s.graphs g gr2 }, none)

/-- `Runtime.remove_iip`: direct graph lookup, resolves the target input
port, disconnects it only under its `is_connected()` guard, then unsets
the initial packet. -/
def Runtime.remove_iip (s : Runtime) (g tn tp : String) : Runtime × Option RErr :=
  match s.graphs.lookup g with
  | none => (s, some (.keyError g))
  | some gr =>
    match gr.findComp tn with
    | none => (s, some .attrError)
    | some tc =>
      match tc.inputs.lookup tp with
      | none => (s, some (.keyError tp))
      | some ta =>
        match (if ta.is_connected then gr.disconnect tn true tp else .ok gr) with
        | .error e => (s, some e)
        | .ok gr1 =>
          let s1 := { s with graphs := setKey s.graphs g gr1 }
          match gr1.unset_initial_packet tn tp with
          | .error e => (s1, some e)
          | .ok gr2 => ({ s with graphs := setKey s.graphs g gr2 }, none)

/-- Observation helper: the attachment of an input port reached through
the runtime's graph table. -/
def Runtime.portAttachment (s : Runtime) (g tn tp : String) : Option Attachment :=
  match s.graphs.lookup g with
  | none => none
  | some gr => gr.getAttach tn true tp

/-! Concrete states used to exercise the theorems on closed inputs. -/

/-- An empty graph under id `g`. -/
def wGraph : Graph := Graph.new "g"

/-- A graph holding one component `n` with one input port `p` carrying a
live connection and one output port `q` carrying a live connection. -/
def wGraphConn : Graph :=
  ⟨"g", [⟨"n", "C", [("p", Attachment.conn)], [("q", Attachment.conn)]⟩]⟩

/-- A running executor bound to `wGraph`. -/
def wExec : Executor := { graph := wGraph, running := true }

/-- An idle executor bound to `wGraph`. -/
def wExecIdle : Executor := { graph := wGraph, running := false }

/-- A runtime with graph `g` and a running executor for it. -/
def wStateRunning : Runtime :=
  { components := [], graphs := [("g", wGraph)], executors := [("g", wExec)] }

/-- A runtime with graph `g` and no executor. -/
def wStateNoExec : Runtime :=
  { components := [], graphs := [("g", wGraph)], executors := [] }

/-- A runtime with graph `g` and an idle executor for it. -/
def wStateIdle : Runtime :=
  { components := [], graphs := [("g", wGraph)], executors := [("g", wExecIdle)] }

/-- A runtime whose graph `g` holds the connected component of
`wGraphConn`. -/
def wStateConn : Runtime :=
  { components := [], graphs := [("g", wGraphConn)], executors := [] }

/-- The empty runtime state. -/
def wStateEmpty : Runtime := { components := [], graphs := [], executors := [] }

/-- A registrable component class. -/
def wClassGood : ComponentClass :=
  { modName := "m", clsName := "C", isComponentSub := true, isGraphSub := false,
    doc := "", inPorts := [], outPorts := [] }

/-- A class that does not inherit from `core.Component`. -/
def wClassBad : ComponentClass :=
  { modName := "m", clsName := "B", isComponentSub := false, isGraphSub := false,
    doc := "", inPorts := [], outPorts := [] }

/-- A runtime with `wClassGood` already registered. -/
def wStateReg : Runtime :=
  { components := [("m/C", ⟨wClassGood, create_component_spec "m/C" wClassGood⟩)],
    graphs := [], executors := [] }

/-! Helper lemmas about the association-list and graph primitives. -/

/-- Looking up the key just set yields the new value. -/
theorem lookup_setKey_self {β : Type} (l : List (String × β)) (k : String) (v : β) :
    (setKey l k v).lookup k = some v := by
  induction l with
  | nil => simp [setKey, List.lookup]
  | cons p t ih =>
      obtain ⟨k1, v1⟩ := p
      by_cases h : k1 = k
      · subst h; simp [setKey, List.lookup]
      · have hb1 : (k1 == k) = false := beq_eq_false_iff_ne.mpr h
        have hb2 : (k == k1) = false := beq_eq_false_iff_ne.mpr (Ne.symm h)
        simp [setKey, List.lookup, hb1, hb2, ih]

/-- Looking up a deleted key yields nothing. -/
theorem lookup_removeKey_self {β : Type} (l : List (String × β)) (k : String) :
    (removeKey l k).lookup k = none := by
  induction l with
  | nil => simp [removeKey, List.lookup]
  | cons p t ih =>
      obtain ⟨k1, v1⟩ := p
      by_cases h : k1 = k
      · subst h; simpa [removeKey, List.lookup] using ih
      · have hb1 : (k1 == k) = false := beq_eq_false_iff_ne.mpr h
        have hb2 : (k == k1) = false := beq_eq_false_iff_ne.mpr (Ne.symm h)
        simp only [removeKey] at ih ⊢
        simp [List.filter_cons, hb1, hb2, List.lookup, ih]

/-- Setting a port attachment does not change the component's name. -/
theorem Comp.name_setAttach (c : Comp) (d : Bool) (p : String) (a : Attachment) :
    (c.setAttach d p a).name = c.name := by
  cases d <;> simp [Comp.setAttach]

/-- Finding the updated component after a `setAttach` on it. -/
theorem Graph.findComp_setAttach (gr : Graph) (n : String) (d : Bool) (p : String)
    (a : Attachment) :
    (gr.setAttach n d p a).findComp n = (gr.findComp n).map (fun c => c.setAttach d p a) := by
  unfold Graph.setAttach Graph.findComp
  induction gr.components with
  | nil => simp [updateFirstComp]
  | cons c t ih =>
      by_cases h : c.name = n
      · simp [updateFirstComp, h, List.find?, Comp.name_setAttach]
      · have hb : (c.name == n) = false := beq_eq_false_iff_ne.mpr h
        have hb2 : ((c.setAttach d p a).name == n) = false := by
          rw [Comp.name_setAttach]; exact hb
        simp [updateFirstComp, hb, hb2, List.find?, ih]

/-- A successful `getAttach` implies the component exists. -/
theorem Graph.findComp_isSome_of_getAttach (gr : Graph) (n : String) (d : Bool) (p : String)
    (a : Attachment) (h : gr.getAttach n d p = some a) : (gr.findComp n).isSome = true := by
  unfold Graph.getAttach at h
  cases hfc : gr.findComp n <;> simp [hfc] at h ⊢

/-- Reading a port attachment right after writing it. -/
theorem Graph.getAttach_setAttach (gr : Graph) (n : String) (d : Bool) (p : String)
    (a : Attachment) (h : (gr.findComp n).isSome = true) :
    (gr.setAttach n d p a).getAttach n d p = some a := by
  unfold Graph.getAttach
  rw [Graph.findComp_setAttach]
  cases hfc : gr.findComp n with
  | none => simp [hfc] at h
  | some c =>
      cases d <;> simp [Comp.setAttach, lookup_setKey_self]

/-- A port with a live attachment (an `is_connected` port) is always
disconnected successfully. -/
theorem Graph.disconnect_of_connected (gr : Graph) (n : String) (d : Bool) (p : String)
    (a : Attachment) (hget : gr.getAttach n d p = some a) (hc : a.is_connected = true) :
    gr.disconnect n d p = .ok (gr.setAttach n d p .unattached) := by
  unfold Graph.disconnect
  rw [hget]
  cases a with
  | unattached => simp [Attachment.is_connected] at hc
  | conn => rfl
  | iip v => rfl

/-- A non-connected attachment is the unattached one. -/
theorem Attachment.eq_unattached_of_not_connected (a : Attachment)
    (h : a.is_connected = false) : a = .unattached := by
  cases a <;> simp [Attachment.is_connected] at h ⊢

/-- The `is_connected` guard before `graph.disconnect` in `remove_edge`,
`add_iip` and `remove_iip` always reduces to a successful result. -/
theorem guard_disconnect_eq (gr : Graph) (n : String) (d : Bool) (p : String) (a : Attachment)
    (hget : gr.getAttach n d p = some a) :
    (if a.is_connected then gr.disconnect n d p else .ok gr)
      = .ok (if a.is_connected then gr.setAttach n d p .unattached else gr) := by
  cases hc : a.is_connected with
  | true => simp only [if_pos rfl]; exact Graph.disconnect_of_connected gr n d p a hget hc
  | false => simp

/-- After the guarded disconnect the port is unattached. -/
theorem guard_disconnect_getAttach (gr : Graph) (n : String) (d : Bool) (p : String)
    (a : Attachment) (hget : gr.getAttach n d p = some a) :
    (if a.is_connected then gr.setAttach n d p .unattached else gr).getAttach n d p
      = some .unattached := by
  cases hc : a.is_connected with
  | true =>
      simp only [if_pos rfl]
      exact Graph.getAttach_setAttach gr n d p .unattached
        (Graph.findComp_isSome_of_getAttach gr n d p a hget)
  | false =>
      simpa [Attachment.eq_unattached_of_not_connected a hc] using hget

/-- Setting an IIP on an unattached port succeeds. -/
theorem Graph.set_initial_packet_unattached (gr : Graph) (n : String) (p : String) (v : PData)
    (h : gr.getAttach n true p = some .unattached) :
    gr.set_initial_packet n p v = .ok (gr.setAttach n true p (.iip v)) := by
  unfold Graph.set_initial_packet
  rw [h]

/-- Unsetting the IIP of an unattached port succeeds (without effect). -/
theorem Graph.unset_initial_packet_unattached (gr : Graph) (n : String) (p : String)
    (h : gr.getAttach n true p = some .unattached) :
    gr.unset_initial_packet n p = .ok gr := by
  unfold Graph.unset_initial_packet
  rw [h]

/-- Observation after writing one input-port attachment through the graph
table. -/
theorem portAttachment_after_set (s : Runtime) (g tn tp : String) (gr1 : Graph)
    (a : Attachment) (hfc : (gr1.findComp tn).isSome = true) :
    Runtime.portAttachment
      { s with graphs := setKey s.graphs g (gr1.setAttach tn true tp a) } g tn tp
      = some a := by
  simp only [Runtime.portAttachment, lookup_setKey_self]
  exact Graph.getAttach_setAttach gr1 tn true tp a hfc

/-! The claims. -/

/-- C5, counterexample: the runtime's type map sends Python `int` to the
protocol type name `"int"`, which is not one of the seven category names
the claim enumerates (it lists `integer`). -/
theorem C5_counterexample :
    (NativeType.int, "int") ∈ type_map ∧
    "int" ∉ (["string", "boolean", "integer", "number", "object", "array", "any"] :
      List String) := by
  decide

/-- C5 (amended): the mapping from native types to port-type categories is
a pure function whose range lies inside the closed enumeration
`{string, boolean, int, number, object, array, any}`: for every native
type in the runtime's type map, the mapped value is one of these names. -/
theorem C5_type_map_range :
    ∀ p ∈ type_map,
      p.2 ∈ (["string", "boolean", "int", "number", "object", "array", "any"] :
        List String) := by
  intro p hp
  fin_cases hp <;> decide

/-- Witness for C5: the type-map entry for `str` maps to `"string"`,
inside the enumeration. -/
theorem C5_type_map_range_witness :
    (NativeType.str, "string") ∈ type_map ∧
    "string" ∈ (["string", "boolean", "int", "number", "object", "array", "any"] :
      List String) :=
  ⟨by decide, C5_type_map_range (NativeType.str, "string") (by decide)⟩

/-- C6: in the component spec built by the runtime, the type reported for
a port is determined solely by the size of its allowed-type set: an empty
set yields `any`; a singleton set yields the type map's category for that
type, with `any` as the fallback for unmapped types; a set with more than
one element yields `any`. Every port entry of a component spec is typed by
`get_port_type` with default `any`. -/
theorem C6_port_type_by_size (al : List NativeType) (n : String) (c : ComponentClass) :
    (al = [] → get_port_type al "any" = "any") ∧
    (∀ t, al = [t] → get_port_type al "any" = type_map_get t "any") ∧
    (2 ≤ al.length → get_port_type al "any" = "any") ∧
    ((create_component_spec n c).inPorts.map (fun e => e.type)
        = c.inPorts.map (fun p => get_port_type p.allowedTypes "any") ∧
      (create_component_spec n c).outPorts.map (fun e => e.type)
        = c.outPorts.map (fun p => get_port_type p.allowedTypes "any")) := by
  refine ⟨fun h => by subst h; rfl, fun t h => by subst h; rfl, ?_, ?_, ?_⟩
  · intro h
    match al, h with
    | a :: b :: rest, _ => rfl
  · simp [create_component_spec]
  · simp [create_component_spec]

/-- Witness for C6: the three size cases evaluated on concrete sets. -/
theorem C6_port_type_by_size_witness :
    get_port_type [] "any" = "any" ∧
    get_port_type [NativeType.int] "any" = type_map_get NativeType.int "any" ∧
    get_port_type [NativeType.int, NativeType.str] "any" = "any" :=
  ⟨(C6_port_type_by_size [] "x" wClassGood).1 rfl,
   (C6_port_type_by_size [NativeType.int] "x" wClassGood).2.1 NativeType.int rfl,
   (C6_port_type_by_size [NativeType.int, NativeType.str] "x" wClassGood).2.2.1 (by decide)⟩

/-- C7: `is_started` is a pure boolean query of the executor table: it is
`false` whenever the graph id has no executor entry, and otherwise returns
exactly the executor's `is_running()`. -/
theorem C7_is_started_query (s : Runtime) (g : String) :
    (s.executors.lookup g = none → Runtime.is_started s g = false) ∧
    (∀ e, s.executors.lookup g = some e → Runtime.is_started s g = e.is_running) := by
  constructor
  · intro h; simp [Runtime.is_started, h]
  · intro e h; simp [Runtime.is_started, h]

/-- Witness for C7: `is_started` on a state with no executor entry and on
a state with a running executor entry. -/
theorem C7_is_started_query_witness :
    Runtime.is_started wStateNoExec "g" = false ∧
    Runtime.is_started wStateRunning "g" = wExec.is_running :=
  ⟨(C7_is_started_query wStateNoExec "g").1 rfl,
   (C7_is_started_query wStateRunning "g").2 wExec rfl⟩

/-- C9: `new_graph` unconditionally binds a fresh empty graph to the id,
discarding any previous graph there, and changes only the graph table:
the executor table and component registry are untouched, and `is_started`
is unchanged for every graph id. -/
theorem C9_new_graph_frame (s : Runtime) (g : String) :
    (Runtime.new_graph s g).graphs.lookup g = some (Graph.new g) ∧
    (Runtime.new_graph s g).executors = s.executors ∧
    (Runtime.new_graph s g).components = s.components ∧
    (∀ x, Runtime.is_started (Runtime.new_graph s g) x = Runtime.is_started s x) :=
  ⟨lookup_setKey_self _ _ _, rfl, rfl, fun _ => rfl⟩

/-- C1: starting an already-running graph fails with the runtime's
state error (the `ValueError` the spec abstracts as StateError) and
stopping a graph with no executor entry fails likewise; in both failure
cases the whole runtime state — in particular the graph table and the
executor table — is returned unchanged. -/
theorem C1_start_stop_state_guard (s : Runtime) (g : String) :
    (∀ gr, s.graphs.lookup g = some gr → Runtime.is_started s g = true →
      Runtime.start s g = (s, some (.valueError ("Graph " ++ g ++ " is already started")))) ∧
    (s.executors.lookup g = none →
      Runtime.stop s g = (s, some (.valueError ("Invalid graph: " ++ g)))) := by
  constructor
  · intro gr hgr hrun
    unfold Runtime.is_started at hrun
    cases he : s.executors.lookup g with
    | none => rw [he] at hrun; simp at hrun
    | some e =>
        rw [he] at hrun
        simp only [] at hrun
        simp [Runtime.start, hgr, he, hrun]
  · intro h
    simp [Runtime.stop, h]

/-- Witness for C1: start on a running graph and stop on a graph with no
executor, both on concrete states. -/
theorem C1_start_stop_state_guard_witness :
    Runtime.start wStateRunning "g"
      = (wStateRunning, some (.valueError "Graph g is already started")) ∧
    Runtime.stop wStateNoExec "g"
      = (wStateNoExec, some (.valueError "Invalid graph: g")) :=
  ⟨(C1_start_stop_state_guard wStateRunning "g").1 wGraph rfl rfl,
   (C1_start_stop_state_guard wStateNoExec "g").2 rfl⟩

/-- C2: a successful `stop` removes the graph's executor entry; a `start`
with no executor entry constructs a new executor bound to the graph
currently stored under the id; a `start` that finds an executor entry
reuses that instance (its bound graph is the one it was created with)
instead of constructing a new one. -/
theorem C2_executor_lifecycle (s : Runtime) (g : String) :
    (∀ e, s.executors.lookup g = some e → e.running = true →
      (Runtime.stop s g).2 = none ∧ (Runtime.stop s g).1.executors.lookup g = none) ∧
    (∀ gr, s.graphs.lookup g = some gr → s.executors.lookup g = none →
      (Runtime.start s g).1.executors.lookup g = some { graph := gr, running := true }) ∧
    (∀ gr e, s.graphs.lookup g = some gr → s.executors.lookup g = some e →
      e.running = false →
      (Runtime.start s g).1.executors.lookup g = some { graph := e.graph, running := true } ∧
      (Runtime.start s g).2 = none) := by
  refine ⟨?_, ?_, ?_⟩
  · intro e he hrun
    refine ⟨?_, ?_⟩
    · simp [Runtime.stop, he, Executor.stop, hrun]
    · simp [Runtime.stop, he, Executor.stop, hrun, lookup_removeKey_self]
  · intro gr hgr he
    simp [Runtime.start, hgr, he, Executor.new, Executor.is_running, Executor.execute,
      lookup_setKey_self]
  · intro gr e hgr he hrun
    constructor
    · simp [Runtime.start, hgr, he, Executor.is_running, Executor.execute, hrun,
        lookup_setKey_self]
    · simp [Runtime.start, hgr, he, Executor.is_running, Executor.execute, hrun]

/-- Witness for C2: stop removes the running executor; a fresh start
creates a running executor bound to the stored graph; a start over an idle
executor entry reuses it. -/
theorem C2_executor_lifecycle_witness :
    ((Runtime.stop wStateRunning "g").2 = none ∧
      (Runtime.stop wStateRunning "g").1.executors.lookup "g" = none) ∧
    ((Runtime.start wStateNoExec "g").1.executors.lookup "g"
      = some { graph := wGraph, running := true }) ∧
    ((Runtime.start wStateIdle "g").1.executors.lookup "g"
      = some { graph := wExecIdle.graph, running := true } ∧
      (Runtime.start wStateIdle "g").2 = none) :=
  ⟨(C2_executor_lifecycle wStateRunning "g").1 wExec rfl rfl,
   (C2_executor_lifecycle wStateNoExec "g").2.1 wGraph rfl rfl,
   (C2_executor_lifecycle wStateIdle "g").2.2 wGraph wExecIdle rfl rfl rfl⟩

/-- C8: `register_component` rejects any argument that is not a subclass
of the core Component class with a ValueError regardless of the overwrite
flag; with `overwrite=False` a long name already in the registry is
rejected with a ValueError and the registry is unchanged; with
`overwrite=True` the entry is (re)placed by the class with its fresh
spec. -/
theorem C8_register_component (s : Runtime) (c : ComponentClass) (ow : Bool) :
    (c.isComponentSub = false →
      Runtime.register_component s c ow =
        (s, some (.valueError "component_class must be a class that inherits from Component"))) ∧
    (c.isComponentSub = true → (s.components.lookup (long_class_name c)).isSome = true →
      ow = false →
      Runtime.register_component s c ow =
        (s, some (.valueError ("Component " ++ long_class_name c ++ " already registered")))) ∧
    (c.isComponentSub = true → ow = true →
      (Runtime.register_component s c ow).1.components.lookup (long_class_name c)
        = some ⟨c, create_component_spec (long_class_name c) c⟩ ∧
      (Runtime.register_component s c ow).2 = none) := by
  refine ⟨?_, ?_, ?_⟩
  · intro h
    simp [Runtime.register_component, h]
  · intro hsub hreg how
    simp [Runtime.register_component, hsub, hreg, how]
  · intro hsub how
    constructor
    · simp [Runtime.register_component, hsub, how, lookup_setKey_self]
    · simp [Runtime.register_component, hsub, how]

/-- Witness for C8: rejecting a non-Component class, rejecting a
duplicate without overwrite, replacing with overwrite. -/
theorem C8_register_component_witness :
    (Runtime.register_component wStateEmpty wClassBad false =
      (wStateEmpty,
        some (.valueError "component_class must be a class that inherits from Component"))) ∧
    (Runtime.register_component wStateReg wClassGood false =
      (wStateReg, some (.valueError ("Component " ++ long_class_name wClassGood
        ++ " already registered")))) ∧
    ((Runtime.register_component wStateReg wClassGood true).1.components.lookup
        (long_class_name wClassGood)
      = some ⟨wClassGood, create_component_spec (long_class_name wClassGood) wClassGood⟩ ∧
      (Runtime.register_component wStateReg wClassGood true).2 = none) :=
  ⟨(C8_register_component wStateEmpty wClassBad false).1 rfl,
   (C8_register_component wStateReg wClassGood false).2.1 rfl (by decide) rfl,
   (C8_register_component wStateReg wClassGood true).2.2 rfl rfl⟩

/-- C10: for a graph id with no graph entry, `_create_or_get_graph` (used
by `add_node` and `remove_node`) creates a fresh empty graph under the id,
so both node operations leave a graph entry behind; the edge and IIP
operations look the graph up directly and fail with a `KeyError` on the
unchanged state. -/
theorem C10_missing_graph_behaviour (s : Runtime)
    (g nodeId componentId sn sp tn tp : String) (v : PData)
    (h : s.graphs.lookup g = none) :
    (Runtime.create_or_get_graph s g).2 = Graph.new g ∧
    (Runtime.create_or_get_graph s g).1.graphs.lookup g = some (Graph.new g) ∧
    ((Runtime.add_node s g nodeId componentId).1.graphs.lookup g).isSome = true ∧
    ((Runtime.remove_node s g nodeId).1.graphs.lookup g).isSome = true ∧
    Runtime.add_edge s g sn sp tn tp = (s, some (.keyError g)) ∧
    Runtime.remove_edge s g sn sp tn tp = (s, some (.keyError g)) ∧
    Runtime.add_iip s g tn tp v = (s, some (.keyError g)) ∧
    Runtime.remove_iip s g tn tp = (s, some (.keyError g)) := by
  refine ⟨?_, ?_, ?_, ?_, ?_, ?_, ?_, ?_⟩
  · simp [Runtime.create_or_get_graph, h]
  · simp [Runtime.create_or_get_graph, h, lookup_setKey_self]
  · cases hc : s.components.lookup componentId with
    | none =>
        simp [Runtime.add_node, Runtime.create_or_get_graph, h, hc, lookup_setKey_self]
    | some entry =>
        simp [Runtime.add_node, Runtime.create_or_get_graph, h, hc, Graph.add_component,
          Graph.new, Graph.findComp, lookup_setKey_self]
  · simp [Runtime.remove_node, Runtime.create_or_get_graph, h, Graph.remove_component,
      Graph.new, Graph.findComp, lookup_setKey_self]
  · simp [Runtime.add_edge, h]
  · simp [Runtime.remove_edge, h]
  · simp [Runtime.add_iip, h]
  · simp [Runtime.remove_iip, h]

/-- Witness for C10: the missing-graph behaviour on the empty runtime
state. -/
theorem C10_missing_graph_behaviour_witness :
    (Runtime.create_or_get_graph wStateEmpty "g").2 = Graph.new "g" ∧
    (Runtime.create_or_get_graph wStateEmpty "g").1.graphs.lookup "g"
      = some (Graph.new "g") ∧
    ((Runtime.add_node wStateEmpty "g" "n" "c").1.graphs.lookup "g").isSome = true ∧
    ((Runtime.remove_node wStateEmpty "g" "n").1.graphs.lookup "g").isSome = true ∧
    Runtime.add_edge wStateEmpty "g" "a" "o" "b" "i"
      = (wStateEmpty, some (.keyError "g")) ∧
    Runtime.remove_edge wStateEmpty "g" "a" "o" "b" "i"
      = (wStateEmpty, some (.keyError "g")) ∧
    Runtime.add_iip wStateEmpty "g" "b" "i" "42"
      = (wStateEmpty, some (.keyError "g")) ∧
    Runtime.remove_iip wStateEmpty "g" "b" "i"
      = (wStateEmpty, some (.keyError "g")) :=
  C10_missing_graph_behaviour wStateEmpty "g" "n" "c" "a" "o" "b" "i" "42" rfl

/-- C3: `add_iip` first disconnects any live attachment on the target
input port (under the `is_connected()` guard) and then sets the initial
packet, so after a successful `add_iip` the port carries the IIP and no
live connection — the connection/IIP mutual-exclusion invariant holds. -/
theorem C3_add_iip_mutual_exclusion (s s1 : Runtime) (g tn tp : String) (v : PData)
    (h : Runtime.add_iip s g tn tp v = (s1, none)) :
    s1.portAttachment g tn tp = some (.iip v) ∧
    s1.portAttachment g tn tp ≠ some .conn := by
  unfold Runtime.add_iip at h
  cases hg : s.graphs.lookup g with
  | none => rw [hg] at h; simp at h
  | some gr =>
    rw [hg] at h
    dsimp only [] at h
    cases hfc : gr.findComp tn with
    | none => rw [hfc] at h; simp at h
    | some tc =>
      rw [hfc] at h
      dsimp only [] at h
      cases hlp : tc.inputs.lookup tp with
      | none => rw [hlp] at h; simp at h
      | some ta =>
        rw [hlp] at h
        dsimp only [] at h
        have hget : gr.getAttach tn true tp = some ta := by
          simp [Graph.getAttach, hfc, hlp]
        rw [guard_disconnect_eq gr tn true tp ta hget] at h
        dsimp only [] at h
        have hga := guard_disconnect_getAttach gr tn true tp ta hget
        rw [Graph.set_initial_packet_unattached _ tn tp v hga] at h
        dsimp only [] at h
        injection h with h1 h2
        subst h1
        have hmain := portAttachment_after_set s g tn tp _ (.iip v)
          (Graph.findComp_isSome_of_getAttach _ tn true tp .unattached hga)
        exact ⟨hmain, by rw [hmain]; simp⟩

/-- Witness for C3: setting an IIP on a port that carries a live
connection leaves the port with the IIP and no connection. -/
theorem C3_add_iip_mutual_exclusion_witness :
    Runtime.add_iip wStateConn "g" "n" "p" "42"
      = ((Runtime.add_iip wStateConn "g" "n" "p" "42").1, none) ∧
    ((Runtime.add_iip wStateConn "g" "n" "p" "42").1.portAttachment "g" "n" "p"
      = some (.iip "42") ∧
     (Runtime.add_iip wStateConn "g" "n" "p" "42").1.portAttachment "g" "n" "p"
      ≠ some .conn) :=
  ⟨by rfl,
   C3_add_iip_mutual_exclusion wStateConn _ "g" "n" "p" "42" (by rfl)⟩

/-- C4: every graph-level disconnect performed by `remove_edge`, `add_iip`
and `remove_iip` is guarded by the port's `is_connected()` query, so the
modelled `graph.disconnect` — which fails with LookupError exactly when
the port has no attachment — never surfaces that error through these
operations. -/
theorem C4_guarded_disconnects (s : Runtime) (g sn sp tn tp : String) (v : PData) :
    (Runtime.remove_edge s g sn sp tn tp).2 ≠ some .lookupError ∧
    (Runtime.add_iip s g tn tp v).2 ≠ some .lookupError ∧
    (Runtime.remove_iip s g tn tp).2 ≠ some .lookupError := by
  refine ⟨?_, ?_, ?_⟩
  · unfold Runtime.remove_edge
    cases hg : s.graphs.lookup g with
    | none => simp
    | some gr =>
      dsimp only []
      cases hfc : gr.findComp sn with
      | none => simp
      | some sc =>
        dsimp only []
        cases hsp : sc.outputs.lookup sp with
        | none => simp
        | some sa =>
          dsimp only []
          have hgs : gr.getAttach sn false sp = some sa := by
            simp [Graph.getAttach, hfc, hsp]
          rw [guard_disconnect_eq gr sn false sp sa hgs]
          dsimp only []
          generalize (if sa.is_connected then gr.setAttach sn false sp .unattached
            else gr) = G1
          cases hfc2 : G1.findComp tn with
          | none => simp
          | some tc =>
            dsimp only []
            cases htp : tc.inputs.lookup tp with
            | none => simp
            | some ta =>
              dsimp only []
              have hgt : G1.getAttach tn true tp = some ta := by
                simp [Graph.getAttach, hfc2, htp]
              rw [guard_disconnect_eq G1 tn true tp ta hgt]
              simp
  · unfold Runtime.add_iip
    cases hg : s.graphs.lookup g with
    | none => simp
    | some gr =>
      dsimp only []
      cases hfc : gr.findComp tn with
      | none => simp
      | some tc =>
        dsimp only []
        cases hlp : tc.inputs.lookup tp with
        | none => simp
        | some ta =>
          dsimp only []
          have hget : gr.getAttach tn true tp = some ta := by
            simp [Graph.getAttach, hfc, hlp]
          rw [guard_disconnect_eq gr tn true tp ta hget]
          dsimp only []
          rw [Graph.set_initial_packet_unattached _ tn tp v
            (guard_disconnect_getAttach gr tn true tp ta hget)]
          simp
  · unfold Runtime.remove_iip
    cases hg : s.graphs.lookup g with
    | none => simp
    | some gr =>
      dsimp only []
      cases hfc : gr.findComp tn with
      | none => simp
      | some tc =>
        dsimp only []
        cases hlp : tc.inputs.lookup tp with
        | none => simp
        | some ta =>
          dsimp only []
          have hget : gr.getAttach tn true tp = some ta := by
            simp [Graph.getAttach, hfc, hlp]
          rw [guard_disconnect_eq gr tn true tp ta hget]
          dsimp only []
          rw [Graph.unset_initial_packet_unattached _ tn tp
            (guard_disconnect_getAttach gr tn true tp ta hget)]
          simp

end Pflow
